import Mathlib

/-!
Verification of the `passport-lit-protocol` credential-validation strategy
(`lib/strategy.js`) against its specification.

The strategy is embedded shallowly: JavaScript truthiness of extracted string
values is modelled on `Option String` (absent = `none`, empty string falsy),
the `||` operator is `jsOr`/`jsOrStr`, the external `LitJsSdk.verifyJwt`
collaborator is an explicit function parameter, and the application-supplied
`verify` callback is a function from its argument shape to an action (either
throwing synchronously or invoking the completion handler once).  The
framework-facing outcome (`success` / `fail` / `error`) is reified as an
`Outcome` value and `authenticate` additionally returns a `Trace` recording
which collaborators were invoked and with which arguments.
-/

namespace PassportLit

/-- An inbound request: a body mapping and a query mapping from field name to
string value.  Mappings are association lists (first binding wins). -/
structure Req where
  body : List (String × String)
  query : List (String × String)
deriving Repr, DecidableEq

/-- Modelled from the spec: the `lookup` helper of `lib/utils`, which is not
under `src/` (only required by `strategy.js`).  Spec §9 describes it as a pure
function `lookup(mapping, key) -> value | absent` with no side effects.  The
nested-path generalization mentioned there is not exercised by any claim, so
mappings are modelled flat. -/
def lookup (m : List (String × String)) (k : String) : Option String :=
  (m.find? (fun p => p.1 == k)).map (fun p => p.2)

/-- JavaScript truthiness of a possibly-absent string value: absent
(`undefined`) and the empty string are falsy. -/
def truthy : Option String → Bool
  | none => false
  | some s => s != ""

/-- JavaScript `a || b` on possibly-absent string values. -/
def jsOr (a b : Option String) : Option String :=
  if truthy a then a else b

/-- JavaScript `a || d` where the fallback `d` is a string constant
(as in `options.jwtField || "jwt"`). -/
def jsOrStr (a : Option String) (d : String) : String :=
  match a with
  | none => d
  | some s => if s == "" then d else s

/-- The claims payload of a verification result:
`{ sub, baseUrl, path, extraData }`, each field possibly absent. -/
structure Payload where
  sub : Option String
  baseUrl : Option String
  path : Option String
  extraData : Option String
deriving Repr, DecidableEq

/-- The result of the external token-verification collaborator
(`LitJsSdk.verifyJwt`): a `verified` boolean and a claims payload. -/
structure VerificationResult where
  verified : Bool
  payload : Payload
deriving Repr, DecidableEq

/-- The constructor `options` object: four optional field-name overrides and
the `passReqToCallback` flag (absent modelled as `false`). -/
structure JsOptions where
  jwtField : Option String := none
  baseUrlField : Option String := none
  pathField : Option String := none
  extraDataField : Option String := none
  passReqToCallback : Bool := false
deriving Repr, DecidableEq

/-- A constructed strategy instance: the resolved field names, the
`passReqToCallback` flag, the strategy name, and the stored verify
callback. -/
structure Strategy (V : Type) where
  name : String
  jwtField : String
  baseUrlField : String
  pathField : String
  extraDataField : String
  passReqToCallback : Bool
  verify : V
deriving Repr, DecidableEq

/-- The first constructor argument: either an options object or — when the
caller passes a single function (`typeof options == "function"`) — the verify
callback itself. -/
inductive CtorArg (V : Type) where
  | opts (o : JsOptions)
  | fn (f : V)
deriving Repr, DecidableEq

/-- The `Strategy(options, verify)` constructor.  A function first argument is
re-interpreted as the verify callback with `options = {}` (the second argument
is then ignored); a missing verify callback makes construction throw
(`TypeError`, modelled as `Except.error`); field names default via `||`. -/
def Strategy.make {V : Type} (arg1 : CtorArg V) (arg2 : Option V) :
    Except String (Strategy V) :=
  let p : JsOptions × Option V :=
    match arg1 with
    | .fn f => ({}, some f)
    | .opts o => (o, arg2)
  match p.2 with
  | none => .error "LitProtocolStrategy requires a verify callback"
  | some f =>
    .ok { name := "litProtocol"
          jwtField := jsOrStr p.1.jwtField "jwt"
          baseUrlField := jsOrStr p.1.baseUrlField "baseUrl"
          pathField := jsOrStr p.1.pathField "path"
          extraDataField := jsOrStr p.1.extraDataField "extraData"
          passReqToCallback := p.1.passReqToCallback
          verify := f }

/-- The argument shape in which the verify callback is invoked: either
`(address, done)` or — with `passReqToCallback` — `(req, address, done)`.
The address is the payload's `sub` claim, possibly absent. -/
inductive VerifyArgs where
  | addrOnly (address : Option String)
  | withReq (req : Req) (address : Option String)
deriving Repr, DecidableEq

/-- What the application verify callback does when invoked: either it raises
a synchronous exception, or it invokes the completion handler once with
`(err, user, info)` (falsy arguments modelled as `none`). -/
inductive VerifyAction (U I E : Type) where
  | raise (ex : E)
  | done (err : Option E) (user : Option U) (info : Option I)
deriving Repr, DecidableEq

/-- The `info` argument of a `fail` outcome: either a strategy-generated
`{ message: ... }` object or the application-supplied info value. -/
inductive Info (I : Type) where
  | msg (m : String)
  | app (i : Option I)
deriving Repr, DecidableEq

/-- The tri-state outcome reported to the host framework:
`success(user, info)`, `fail(info, status)` (status absent when the strategy
calls `fail(info)` with one argument), or `error(ex)`. -/
inductive Outcome (U I E : Type) where
  | success (user : U) (info : Option I)
  | fail (info : Info I) (status : Option Nat)
  | error (ex : E)
deriving Repr, DecidableEq

/-- A record of the collaborator invocations made during one `authenticate`
call: the tokens passed to `LitJsSdk.verifyJwt` and the argument shapes with
which the application verify callback was invoked. -/
structure Trace where
  verifyJwtCalls : List String
  verifyCalls : List VerifyArgs
deriving Repr, DecidableEq

/-- Per-call `authenticate` options: the single message-override key
`badRequestMessage`. -/
structure AuthOptions where
  badRequestMessage : Option String := none
deriving Repr, DecidableEq

/-- The internal completion handler `callback(err, user, info)`: a truthy
`err` yields `error(err)`; otherwise a falsy `user` yields `fail(info)` with
no status; otherwise `success(user, info)`. -/
def callback {U I E : Type} (err : Option E) (user : Option U)
    (info : Option I) : Outcome U I E :=
  match err with
  | some e => .error e
  | none =>
    match user with
    | none => .fail (.app info) none
    | some u => .success u info

/-- Extraction of one field: look up in the body, `||`-falling back to the
query (`lookup(req.body, f) || lookup(req.query, f)`). -/
def extractField (req : Req) (f : String) : Option String :=
  jsOr (lookup req.body f) (lookup req.query f)

/-- `Strategy.prototype.authenticate(req, options)`.  `verifyJwt` stands for
the external `LitJsSdk.verifyJwt` collaborator; `s.verify` is the stored
application callback.  Returns the outcome together with the invocation
trace. -/
def Strategy.authenticate {U I E : Type}
    (s : Strategy (VerifyArgs → VerifyAction U I E))
    (verifyJwt : String → VerificationResult)
    (req : Req) (opts : AuthOptions) : Outcome U I E × Trace :=
  let jwt := extractField req s.jwtField
  let baseUrl := extractField req s.baseUrlField
  let path := extractField req s.pathField
  let extraData := extractField req s.extraDataField
  if !truthy jwt || !truthy baseUrl || !truthy path || !truthy extraData then
    (.fail (.msg (jsOrStr opts.badRequestMessage "Missing credentials"))
       (some 400),
     { verifyJwtCalls := [], verifyCalls := [] })
  else
    let tok := jwt.getD ""
    let vr := verifyJwt tok
    let address := vr.payload.sub
    if vr.payload.baseUrl != baseUrl || vr.payload.path != path ||
        vr.payload.extraData != extraData then
      (.fail (.msg (jsOrStr opts.badRequestMessage
           "Ooops. JWT payload does not match requested resource."))
         (some 400),
       { verifyJwtCalls := [tok], verifyCalls := [] })
    else if !vr.verified then
      (.fail (.msg (jsOrStr opts.badRequestMessage
           "Ooops. You don't have access to this resource."))
         (some 400),
       { verifyJwtCalls := [tok], verifyCalls := [] })
    else
      let args := if s.passReqToCallback then VerifyArgs.withReq req address
                  else VerifyArgs.addrOnly address
      match s.verify args with
      | .raise ex =>
        (.error ex, { verifyJwtCalls := [tok], verifyCalls := [args] })
      | .done err user info =>
        (callback err user info,
         { verifyJwtCalls := [tok], verifyCalls := [args] })

end PassportLit

namespace PassportLit

/-! ### Branch characterization lemmas for `authenticate` -/

theorem authenticate_presence_fail {U I E : Type}
    (s : Strategy (VerifyArgs → VerifyAction U I E))
    (vj : String → VerificationResult) (req : Req) (opts : AuthOptions)
    (h : truthy (extractField req s.jwtField) = false ∨
         truthy (extractField req s.baseUrlField) = false ∨
         truthy (extractField req s.pathField) = false ∨
         truthy (extractField req s.extraDataField) = false) :
    s.authenticate vj req opts =
      (.fail (.msg (jsOrStr opts.badRequestMessage "Missing credentials"))
         (some 400),
       { verifyJwtCalls := [], verifyCalls := [] }) := by
  have h1 : (!truthy (extractField req s.jwtField) ||
             !truthy (extractField req s.baseUrlField) ||
             !truthy (extractField req s.pathField) ||
             !truthy (extractField req s.extraDataField)) = true := by
    rcases h with h | h | h | h <;> simp [h]
  simp [Strategy.authenticate, h1]

theorem authenticate_mismatch_fail {U I E : Type}
    (s : Strategy (VerifyArgs → VerifyAction U I E))
    (vj : String → VerificationResult) (req : Req) (opts : AuthOptions)
    (hj : truthy (extractField req s.jwtField) = true)
    (hb : truthy (extractField req s.baseUrlField) = true)
    (hp : truthy (extractField req s.pathField) = true)
    (hx : truthy (extractField req s.extraDataField) = true)
    (hmis : (vj ((extractField req s.jwtField).getD "")).payload.baseUrl ≠
              extractField req s.baseUrlField ∨
            (vj ((extractField req s.jwtField).getD "")).payload.path ≠
              extractField req s.pathField ∨
            (vj ((extractField req s.jwtField).getD "")).payload.extraData ≠
              extractField req s.extraDataField) :
    s.authenticate vj req opts =
      (.fail (.msg (jsOrStr opts.badRequestMessage
           "Ooops. JWT payload does not match requested resource."))
         (some 400),
       { verifyJwtCalls := [(extractField req s.jwtField).getD ""],
         verifyCalls := [] }) := by
  have h1 : (!truthy (extractField req s.jwtField) ||
             !truthy (extractField req s.baseUrlField) ||
             !truthy (extractField req s.pathField) ||
             !truthy (extractField req s.extraDataField)) = false := by
    simp [hj, hb, hp, hx]
  have h2 : ((vj ((extractField req s.jwtField).getD "")).payload.baseUrl !=
               extractField req s.baseUrlField ||
             (vj ((extractField req s.jwtField).getD "")).payload.path !=
               extractField req s.pathField ||
             (vj ((extractField req s.jwtField).getD "")).payload.extraData !=
               extractField req s.extraDataField) = true := by
    simp only [Bool.or_eq_true, bne_iff_ne]
    tauto
  simp [Strategy.authenticate, h1, h2]

theorem authenticate_unverified_fail {U I E : Type}
    (s : Strategy (VerifyArgs → VerifyAction U I E))
    (vj : String → VerificationResult) (req : Req) (opts : AuthOptions)
    (hj : truthy (extractField req s.jwtField) = true)
    (hb : truthy (extractField req s.baseUrlField) = true)
    (hp : truthy (extractField req s.pathField) = true)
    (hx : truthy (extractField req s.extraDataField) = true)
    (mb : (vj ((extractField req s.jwtField).getD "")).payload.baseUrl =
            extractField req s.baseUrlField)
    (mp : (vj ((extractField req s.jwtField).getD "")).payload.path =
            extractField req s.pathField)
    (mx : (vj ((extractField req s.jwtField).getD "")).payload.extraData =
            extractField req s.extraDataField)
    (hv : (vj ((extractField req s.jwtField).getD "")).verified = false) :
    s.authenticate vj req opts =
      (.fail (.msg (jsOrStr opts.badRequestMessage
           "Ooops. You don't have access to this resource."))
         (some 400),
       { verifyJwtCalls := [(extractField req s.jwtField).getD ""],
         verifyCalls := [] }) := by
  have h1 : (!truthy (extractField req s.jwtField) ||
             !truthy (extractField req s.baseUrlField) ||
             !truthy (extractField req s.pathField) ||
             !truthy (extractField req s.extraDataField)) = false := by
    simp [hj, hb, hp, hx]
  have h2 : ((vj ((extractField req s.jwtField).getD "")).payload.baseUrl !=
               extractField req s.baseUrlField ||
             (vj ((extractField req s.jwtField).getD "")).payload.path !=
               extractField req s.pathField ||
             (vj ((extractField req s.jwtField).getD "")).payload.extraData !=
               extractField req s.extraDataField) = false := by
    simp [mb, mp, mx]
  simp [Strategy.authenticate, h1, h2, hv]

theorem authenticate_delegates {U I E : Type}
    (s : Strategy (VerifyArgs → VerifyAction U I E))
    (vj : String → VerificationResult) (req : Req) (opts : AuthOptions)
    (hj : truthy (extractField req s.jwtField) = true)
    (hb : truthy (extractField req s.baseUrlField) = true)
    (hp : truthy (extractField req s.pathField) = true)
    (hx : truthy (extractField req s.extraDataField) = true)
    (mb : (vj ((extractField req s.jwtField).getD "")).payload.baseUrl =
            extractField req s.baseUrlField)
    (mp : (vj ((extractField req s.jwtField).getD "")).payload.path =
            extractField req s.pathField)
    (mx : (vj ((extractField req s.jwtField).getD "")).payload.extraData =
            extractField req s.extraDataField)
    (hv : (vj ((extractField req s.jwtField).getD "")).verified = true) :
    s.authenticate vj req opts =
      (match s.verify (if s.passReqToCallback then
               VerifyArgs.withReq req
                 (vj ((extractField req s.jwtField).getD "")).payload.sub
             else
               VerifyArgs.addrOnly
                 (vj ((extractField req s.jwtField).getD "")).payload.sub) with
       | .raise ex =>
         (Outcome.error ex,
          { verifyJwtCalls := [(extractField req s.jwtField).getD ""],
            verifyCalls := [if s.passReqToCallback then
                VerifyArgs.withReq req
                  (vj ((extractField req s.jwtField).getD "")).payload.sub
              else
                VerifyArgs.addrOnly
                  (vj ((extractField req s.jwtField).getD "")).payload.sub] })
       | .done err user info =>
         (callback err user info,
          { verifyJwtCalls := [(extractField req s.jwtField).getD ""],
            verifyCalls := [if s.passReqToCallback then
                VerifyArgs.withReq req
                  (vj ((extractField req s.jwtField).getD "")).payload.sub
              else
                VerifyArgs.addrOnly
                  (vj ((extractField req s.jwtField).getD "")).payload.sub] })) := by
  have h1 : (!truthy (extractField req s.jwtField) ||
             !truthy (extractField req s.baseUrlField) ||
             !truthy (extractField req s.pathField) ||
             !truthy (extractField req s.extraDataField)) = false := by
    simp [hj, hb, hp, hx]
  have h2 : ((vj ((extractField req s.jwtField).getD "")).payload.baseUrl !=
               extractField req s.baseUrlField ||
             (vj ((extractField req s.jwtField).getD "")).payload.path !=
               extractField req s.pathField ||
             (vj ((extractField req s.jwtField).getD "")).payload.extraData !=
               extractField req s.extraDataField) = false := by
    simp [mb, mp, mx]
  simp [Strategy.authenticate, h1, h2, hv]

end PassportLit

namespace PassportLit

/-! ### Claim theorems -/

/-- C1: for every request whose claims payload differs from the extracted
request values in `baseUrl`, `path`, or `extraData`, `authenticate` yields
`fail` with the resource-mismatch message (default or per-call override) and
status 400, with no hypothesis on the `verified` flag: the claim-match check
is evaluated before the verified-flag check, so when both a mismatch and
`verified = false` hold the outcome is the mismatch failure. -/
theorem claim_C1_mismatch_takes_precedence {U I E : Type}
    (s : Strategy (VerifyArgs → VerifyAction U I E))
    (vj : String → VerificationResult) (req : Req) (opts : AuthOptions)
    (hj : truthy (extractField req s.jwtField) = true)
    (hb : truthy (extractField req s.baseUrlField) = true)
    (hp : truthy (extractField req s.pathField) = true)
    (hx : truthy (extractField req s.extraDataField) = true)
    (hmis : (vj ((extractField req s.jwtField).getD "")).payload.baseUrl ≠
              extractField req s.baseUrlField ∨
            (vj ((extractField req s.jwtField).getD "")).payload.path ≠
              extractField req s.pathField ∨
            (vj ((extractField req s.jwtField).getD "")).payload.extraData ≠
              extractField req s.extraDataField) :
    (s.authenticate vj req opts).1 =
      .fail (.msg (jsOrStr opts.badRequestMessage
          "Ooops. JWT payload does not match requested resource."))
        (some 400) := by
  rw [authenticate_mismatch_fail s vj req opts hj hb hp hx hmis]

/-- C1 witness: a concrete request whose token decodes to a payload with the
wrong `path` claim and `verified = false`; the outcome is the mismatch
failure, not the not-authorized one. -/
theorem claim_C1_witness :
    (Strategy.authenticate
      { name := "litProtocol", jwtField := "jwt", baseUrlField := "baseUrl",
        pathField := "path", extraDataField := "extraData",
        passReqToCallback := false,
        verify := fun _ => VerifyAction.done (U := String) (I := String)
          (E := String) none (some "user1") none }
      (fun _ => { verified := false,
                  payload := { sub := some "addr1", baseUrl := some "https://x",
                               path := some "/other", extraData := some "d1" } })
      { body := [("jwt", "t1"), ("baseUrl", "https://x"), ("path", "/r"),
                 ("extraData", "d1")], query := [] }
      {}).1 =
      .fail (.msg "Ooops. JWT payload does not match requested resource.")
        (some 400) :=
  claim_C1_mismatch_takes_precedence _ _ _ _ (by decide) (by decide)
    (by decide) (by decide) (by decide)

/-- C2: for every request in which one of the four extracted values is missing
or empty after consulting body and query, `authenticate` yields `fail` with
message "Missing credentials" (or the per-call override) and status 400, and
the trace is empty: neither the token-verification collaborator nor the
verify callback is invoked. -/
theorem claim_C2_missing_credentials_short_circuits {U I E : Type}
    (s : Strategy (VerifyArgs → VerifyAction U I E))
    (vj : String → VerificationResult) (req : Req) (opts : AuthOptions)
    (h : truthy (extractField req s.jwtField) = false ∨
         truthy (extractField req s.baseUrlField) = false ∨
         truthy (extractField req s.pathField) = false ∨
         truthy (extractField req s.extraDataField) = false) :
    s.authenticate vj req opts =
      (.fail (.msg (jsOrStr opts.badRequestMessage "Missing credentials"))
         (some 400),
       { verifyJwtCalls := [], verifyCalls := [] }) :=
  authenticate_presence_fail s vj req opts h

/-- C2 witness: a concrete request with the `extraData` field absent from both
body and query; the outcome is the missing-credentials failure with an empty
invocation trace. -/
theorem claim_C2_witness :
    Strategy.authenticate
      { name := "litProtocol", jwtField := "jwt", baseUrlField := "baseUrl",
        pathField := "path", extraDataField := "extraData",
        passReqToCallback := false,
        verify := fun _ => VerifyAction.done (U := String) (I := String)
          (E := String) none (some "user1") none }
      (fun _ => { verified := true,
                  payload := { sub := some "addr1", baseUrl := some "https://x",
                               path := some "/r", extraData := some "d1" } })
      { body := [("jwt", "t1"), ("baseUrl", "https://x")],
        query := [("path", "/r")] }
      {} =
      (.fail (.msg "Missing credentials") (some 400),
       { verifyJwtCalls := [], verifyCalls := [] }) :=
  claim_C2_missing_credentials_short_circuits _ _ _ _ (by decide)

/-- C3: for every request where the extracted claims all equal the extracted
request values but the collaborator reports `verified = false`, `authenticate`
yields `fail` with the not-authorized message (default or per-call override)
and status 400, and the trace shows the verify callback was not invoked. -/
theorem claim_C3_unverified_fails_without_delegation {U I E : Type}
    (s : Strategy (VerifyArgs → VerifyAction U I E))
    (vj : String → VerificationResult) (req : Req) (opts : AuthOptions)
    (hj : truthy (extractField req s.jwtField) = true)
    (hb : truthy (extractField req s.baseUrlField) = true)
    (hp : truthy (extractField req s.pathField) = true)
    (hx : truthy (extractField req s.extraDataField) = true)
    (mb : (vj ((extractField req s.jwtField).getD "")).payload.baseUrl =
            extractField req s.baseUrlField)
    (mp : (vj ((extractField req s.jwtField).getD "")).payload.path =
            extractField req s.pathField)
    (mx : (vj ((extractField req s.jwtField).getD "")).payload.extraData =
            extractField req s.extraDataField)
    (hv : (vj ((extractField req s.jwtField).getD "")).verified = false) :
    s.authenticate vj req opts =
      (.fail (.msg (jsOrStr opts.badRequestMessage
           "Ooops. You don't have access to this resource."))
         (some 400),
       { verifyJwtCalls := [(extractField req s.jwtField).getD ""],
         verifyCalls := [] }) :=
  authenticate_unverified_fail s vj req opts hj hb hp hx mb mp mx hv

/-- C3 witness: matching claims but `verified = false`; the outcome is the
not-authorized failure and the verify callback is never invoked. -/
theorem claim_C3_witness :
    Strategy.authenticate
      { name := "litProtocol", jwtField := "jwt", baseUrlField := "baseUrl",
        pathField := "path", extraDataField := "extraData",
        passReqToCallback := false,
        verify := fun _ => VerifyAction.done (U := String) (I := String)
          (E := String) none (some "user1") none }
      (fun _ => { verified := false,
                  payload := { sub := some "addr1", baseUrl := some "https://x",
                               path := some "/r", extraData := some "d1" } })
      { body := [("jwt", "t1"), ("baseUrl", "https://x"), ("path", "/r"),
                 ("extraData", "d1")], query := [] }
      {} =
      (.fail (.msg "Ooops. You don't have access to this resource.")
         (some 400),
       { verifyJwtCalls := ["t1"], verifyCalls := [] }) :=
  claim_C3_unverified_fails_without_delegation _ _ _ _ (by decide) (by decide)
    (by decide) (by decide) (by decide) (by decide) (by decide) (by decide)

end PassportLit

namespace PassportLit

/-- C4: for every request where all four credentials are present, the claims
match, and `verified = true`, `authenticate` invokes the verify callback
exactly once — the trace's `verifyCalls` is a singleton — with the payload's
`sub` as its address argument, wrapped as `(req, sub)` when
`passReqToCallback` is set and as `(sub)` otherwise. -/
theorem claim_C4_verify_invoked_once_with_subject {U I E : Type}
    (s : Strategy (VerifyArgs → VerifyAction U I E))
    (vj : String → VerificationResult) (req : Req) (opts : AuthOptions)
    (hj : truthy (extractField req s.jwtField) = true)
    (hb : truthy (extractField req s.baseUrlField) = true)
    (hp : truthy (extractField req s.pathField) = true)
    (hx : truthy (extractField req s.extraDataField) = true)
    (mb : (vj ((extractField req s.jwtField).getD "")).payload.baseUrl =
            extractField req s.baseUrlField)
    (mp : (vj ((extractField req s.jwtField).getD "")).payload.path =
            extractField req s.pathField)
    (mx : (vj ((extractField req s.jwtField).getD "")).payload.extraData =
            extractField req s.extraDataField)
    (hv : (vj ((extractField req s.jwtField).getD "")).verified = true) :
    (s.authenticate vj req opts).2.verifyCalls =
      [if s.passReqToCallback then
         VerifyArgs.withReq req
           (vj ((extractField req s.jwtField).getD "")).payload.sub
       else
         VerifyArgs.addrOnly
           (vj ((extractField req s.jwtField).getD "")).payload.sub] := by
  rw [authenticate_delegates s vj req opts hj hb hp hx mb mp mx hv]
  cases s.verify (if s.passReqToCallback then
      VerifyArgs.withReq req
        (vj ((extractField req s.jwtField).getD "")).payload.sub
    else
      VerifyArgs.addrOnly
        (vj ((extractField req s.jwtField).getD "")).payload.sub) <;> rfl

/-- C4 witness: on the happy path with `passReqToCallback = false` the verify
callback receives exactly one invocation carrying the subject `addr1`. -/
theorem claim_C4_witness :
    (Strategy.authenticate
      { name := "litProtocol", jwtField := "jwt", baseUrlField := "baseUrl",
        pathField := "path", extraDataField := "extraData",
        passReqToCallback := false,
        verify := fun _ => VerifyAction.done (U := String) (I := String)
          (E := String) none (some "user1") none }
      (fun _ => { verified := true,
                  payload := { sub := some "addr1", baseUrl := some "https://x",
                               path := some "/r", extraData := some "d1" } })
      { body := [("jwt", "t1"), ("baseUrl", "https://x"), ("path", "/r"),
                 ("extraData", "d1")], query := [] }
      {}).2.verifyCalls = [VerifyArgs.addrOnly (some "addr1")] :=
  claim_C4_verify_invoked_once_with_subject _ _ _ _ (by decide) (by decide)
    (by decide) (by decide) (by decide) (by decide) (by decide) (by decide)

/-- C5: the internal completion handler maps its arguments to the outcome
with this precedence: a present error argument yields `error` wrapping it,
even when a user argument is also supplied; otherwise an absent user argument
yields `fail(info)` with no status code; otherwise `success(user, info)`. -/
theorem claim_C5_completion_handler_precedence {U I E : Type}
    (err : Option E) (user : Option U) (info : Option I) :
    (∀ e : E, err = some e →
       callback err user info = Outcome.error e) ∧
    (err = none → user = none →
       callback err user info = Outcome.fail (Info.app info) none) ∧
    (∀ u : U, err = none → user = some u →
       callback err user info = Outcome.success u info) := by
  refine ⟨fun e he => ?_, fun he hu => ?_, fun u he hu => ?_⟩ <;>
    subst he <;> first
      | rfl
      | (subst hu; rfl)

/-- C5 witness: with both an error and a user supplied the handler yields
`error`; with neither it yields a status-less `fail`; with only a user it
yields `success`. -/
theorem claim_C5_witness :
    callback (U := String) (I := String) (E := String)
        (some "boom") (some "user1") none = Outcome.error "boom" ∧
    callback (U := String) (I := String) (E := String)
        none none (some "nope") = Outcome.fail (Info.app (some "nope")) none ∧
    callback (U := String) (I := String) (E := String)
        none (some "user1") (some "ok") =
      Outcome.success "user1" (some "ok") :=
  ⟨(claim_C5_completion_handler_precedence (some "boom") (some "user1")
      none).1 "boom" rfl,
   (claim_C5_completion_handler_precedence none none (some "nope")).2.1
      rfl rfl,
   (claim_C5_completion_handler_precedence none (some "user1")
      (some "ok")).2.2 "user1" rfl rfl⟩

/-- C6: for every verify callback that throws synchronously on the delegated
happy path, `authenticate` yields `error` wrapping the thrown value (the
model is a total function, so no exception escapes the call). -/
theorem claim_C6_synchronous_throw_becomes_error {U I E : Type}
    (s : Strategy (VerifyArgs → VerifyAction U I E))
    (vj : String → VerificationResult) (req : Req) (opts : AuthOptions)
    (hj : truthy (extractField req s.jwtField) = true)
    (hb : truthy (extractField req s.baseUrlField) = true)
    (hp : truthy (extractField req s.pathField) = true)
    (hx : truthy (extractField req s.extraDataField) = true)
    (mb : (vj ((extractField req s.jwtField).getD "")).payload.baseUrl =
            extractField req s.baseUrlField)
    (mp : (vj ((extractField req s.jwtField).getD "")).payload.path =
            extractField req s.pathField)
    (mx : (vj ((extractField req s.jwtField).getD "")).payload.extraData =
            extractField req s.extraDataField)
    (hv : (vj ((extractField req s.jwtField).getD "")).verified = true)
    (ex : E)
    (hthrow : s.verify (if s.passReqToCallback then
        VerifyArgs.withReq req
          (vj ((extractField req s.jwtField).getD "")).payload.sub
      else
        VerifyArgs.addrOnly
          (vj ((extractField req s.jwtField).getD "")).payload.sub) =
      VerifyAction.raise ex) :
    (s.authenticate vj req opts).1 = Outcome.error ex := by
  rw [authenticate_delegates s vj req opts hj hb hp hx mb mp mx hv, hthrow]

/-- C6 witness: a verify callback that always throws; `authenticate` returns
`error "kaboom"`. -/
theorem claim_C6_witness :
    (Strategy.authenticate
      { name := "litProtocol", jwtField := "jwt", baseUrlField := "baseUrl",
        pathField := "path", extraDataField := "extraData",
        passReqToCallback := false,
        verify := fun _ => VerifyAction.raise (U := String) (I := String)
          (E := String) "kaboom" }
      (fun _ => { verified := true,
                  payload := { sub := some "addr1", baseUrl := some "https://x",
                               path := some "/r", extraData := some "d1" } })
      { body := [("jwt", "t1"), ("baseUrl", "https://x"), ("path", "/r"),
                 ("extraData", "d1")], query := [] }
      {}).1 = Outcome.error "kaboom" :=
  claim_C6_synchronous_throw_becomes_error _ _ _ _ (by decide) (by decide)
    (by decide) (by decide) (by decide) (by decide) (by decide) (by decide)
    "kaboom" rfl

end PassportLit

namespace PassportLit

/-- C7: extraction of each configured field name consults the body mapping
first — a nonempty body value wins — and falls back to the query mapping when
the field is absent in the body; and the four field names default to `jwt`,
`baseUrl`, `path`, `extraData` when not overridden at construction. -/
theorem claim_C7_extraction_order_and_default_fields {V : Type} :
    (∀ (req : Req) (f v : String),
       lookup req.body f = some v → v ≠ "" →
       extractField req f = some v) ∧
    (∀ (req : Req) (f : String),
       lookup req.body f = none →
       extractField req f = lookup req.query f) ∧
    (∀ (b : Bool) (vf : V),
       Strategy.make
         (.opts { jwtField := none, baseUrlField := none, pathField := none,
                  extraDataField := none, passReqToCallback := b })
         (some vf) =
       .ok { name := "litProtocol", jwtField := "jwt",
             baseUrlField := "baseUrl", pathField := "path",
             extraDataField := "extraData", passReqToCallback := b,
             verify := vf }) := by
  refine ⟨fun req f v h hv => ?_, fun req f h => ?_, fun b vf => rfl⟩
  · simp [extractField, jsOr, truthy, h, hv]
  · simp [extractField, jsOr, truthy, h]

/-- C7 witness: with `baseUrl` in both body and query the body value wins;
with `jwt` absent from the body the query value is used; construction with no
field overrides resolves the four default field names. -/
theorem claim_C7_witness :
    extractField { body := [("baseUrl", "B")], query := [("baseUrl", "Q")] }
        "baseUrl" = some "B" ∧
    extractField { body := [], query := [("jwt", "Q")] } "jwt" = some "Q" ∧
    Strategy.make (V := Nat)
        (.opts { jwtField := none, baseUrlField := none, pathField := none,
                 extraDataField := none, passReqToCallback := false })
        (some 7) =
      .ok { name := "litProtocol", jwtField := "jwt", baseUrlField := "baseUrl",
            pathField := "path", extraDataField := "extraData",
            passReqToCallback := false, verify := 7 } :=
  ⟨(claim_C7_extraction_order_and_default_fields (V := Nat)).1 _ "baseUrl" "B"
      (by decide) (by decide),
   ((claim_C7_extraction_order_and_default_fields (V := Nat)).2.1 _ "jwt"
      (by decide)).trans (by decide),
   (claim_C7_extraction_order_and_default_fields (V := Nat)).2.2 false 7⟩

/-- C8: construction without a verify callback throws the `TypeError`; a
single function argument is treated as the verify callback with default
options (any second argument is ignored); and construction succeeds exactly
when a verify callback is present. -/
theorem claim_C8_constructor_requires_verify {V : Type} :
    (∀ o : JsOptions,
       Strategy.make (V := V) (.opts o) none =
         .error "LitProtocolStrategy requires a verify callback") ∧
    (∀ (f : V) (arg2 : Option V),
       Strategy.make (.fn f) arg2 =
         .ok { name := "litProtocol", jwtField := "jwt",
               baseUrlField := "baseUrl", pathField := "path",
               extraDataField := "extraData", passReqToCallback := false,
               verify := f }) ∧
    (∀ (arg1 : CtorArg V) (arg2 : Option V),
       (∃ st, Strategy.make arg1 arg2 = .ok st) ↔
         (match arg1 with
          | .fn _ => True
          | .opts _ => arg2.isSome = true)) := by
  refine ⟨fun o => rfl, fun f arg2 => rfl, fun arg1 arg2 => ?_⟩
  cases arg1 with
  | fn f => simp [Strategy.make]
  | opts o => cases arg2 <;> simp [Strategy.make]

/-- C8 witness: construction with an options object and no callback throws;
a single function argument yields a strategy with default options; supplying
a callback makes construction succeed. -/
theorem claim_C8_witness :
    Strategy.make (V := Nat) (.opts {}) none =
      .error "LitProtocolStrategy requires a verify callback" ∧
    Strategy.make (V := Nat) (.fn 5) (some 9) =
      .ok { name := "litProtocol", jwtField := "jwt", baseUrlField := "baseUrl",
            pathField := "path", extraDataField := "extraData",
            passReqToCallback := false, verify := 5 } ∧
    (∃ st, Strategy.make (V := Nat) (.opts {}) (some 7) = .ok st) :=
  ⟨(claim_C8_constructor_requires_verify (V := Nat)).1 {},
   (claim_C8_constructor_requires_verify (V := Nat)).2.1 5 (some 9),
   ((claim_C8_constructor_requires_verify (V := Nat)).2.2 (.opts {})
      (some 7)).mpr rfl⟩

end PassportLit

namespace PassportLit

/-- C9: each of the three failure reasons — missing credentials, resource
mismatch, not authorized — produces a message that is the per-call
`badRequestMessage` override when one is supplied (any nonempty string), and
the documented default for that reason when no override is supplied. -/
theorem claim_C9_per_call_message_overrides {U I E : Type}
    (s : Strategy (VerifyArgs → VerifyAction U I E))
    (vj : String → VerificationResult) (req : Req) (m : String)
    (hm : m ≠ "") :
    ((truthy (extractField req s.jwtField) = false ∨
      truthy (extractField req s.baseUrlField) = false ∨
      truthy (extractField req s.pathField) = false ∨
      truthy (extractField req s.extraDataField) = false) →
      (s.authenticate vj req { badRequestMessage := some m }).1 =
        .fail (.msg m) (some 400) ∧
      (s.authenticate vj req { badRequestMessage := none }).1 =
        .fail (.msg "Missing credentials") (some 400)) ∧
    ((truthy (extractField req s.jwtField) = true ∧
      truthy (extractField req s.baseUrlField) = true ∧
      truthy (extractField req s.pathField) = true ∧
      truthy (extractField req s.extraDataField) = true ∧
      ((vj ((extractField req s.jwtField).getD "")).payload.baseUrl ≠
         extractField req s.baseUrlField ∨
       (vj ((extractField req s.jwtField).getD "")).payload.path ≠
         extractField req s.pathField ∨
       (vj ((extractField req s.jwtField).getD "")).payload.extraData ≠
         extractField req s.extraDataField)) →
      (s.authenticate vj req { badRequestMessage := some m }).1 =
        .fail (.msg m) (some 400) ∧
      (s.authenticate vj req { badRequestMessage := none }).1 =
        .fail (.msg "Ooops. JWT payload does not match requested resource.")
          (some 400)) ∧
    ((truthy (extractField req s.jwtField) = true ∧
      truthy (extractField req s.baseUrlField) = true ∧
      truthy (extractField req s.pathField) = true ∧
      truthy (extractField req s.extraDataField) = true ∧
      (vj ((extractField req s.jwtField).getD "")).payload.baseUrl =
        extractField req s.baseUrlField ∧
      (vj ((extractField req s.jwtField).getD "")).payload.path =
        extractField req s.pathField ∧
      (vj ((extractField req s.jwtField).getD "")).payload.extraData =
        extractField req s.extraDataField ∧
      (vj ((extractField req s.jwtField).getD "")).verified = false) →
      (s.authenticate vj req { badRequestMessage := some m }).1 =
        .fail (.msg m) (some 400) ∧
      (s.authenticate vj req { badRequestMessage := none }).1 =
        .fail (.msg "Ooops. You don't have access to this resource.")
          (some 400)) := by
  have hjs : ∀ d : String, jsOrStr (some m) d = m := by
    intro d
    simp [jsOrStr, hm]
  refine ⟨fun h => ?_, fun h => ?_, fun h => ?_⟩
  · rw [authenticate_presence_fail s vj req { badRequestMessage := some m } h,
        authenticate_presence_fail s vj req { badRequestMessage := none } h]
    simp [hjs, jsOrStr, hm]
  · obtain ⟨hj, hb, hp, hx, hmis⟩ := h
    rw [authenticate_mismatch_fail s vj req { badRequestMessage := some m }
          hj hb hp hx hmis,
        authenticate_mismatch_fail s vj req { badRequestMessage := none }
          hj hb hp hx hmis]
    simp [hjs, jsOrStr, hm]
  · obtain ⟨hj, hb, hp, hx, mb, mp, mx, hv⟩ := h
    rw [authenticate_unverified_fail s vj req { badRequestMessage := some m }
          hj hb hp hx mb mp mx hv,
        authenticate_unverified_fail s vj req { badRequestMessage := none }
          hj hb hp hx mb mp mx hv]
    simp [hjs, jsOrStr, hm]

/-- C9 witness: with the override "Custom message" and without it, the three
failure reasons at concrete requests produce the override and the respective
documented defaults. -/
theorem claim_C9_witness :
    ((Strategy.authenticate
        { name := "litProtocol", jwtField := "jwt", baseUrlField := "baseUrl",
          pathField := "path", extraDataField := "extraData",
          passReqToCallback := false,
          verify := fun _ => VerifyAction.done (U := String) (I := String)
            (E := String) none (some "user1") none }
        (fun _ => { verified := true,
                    payload := { sub := some "addr1",
                                 baseUrl := some "https://x",
                                 path := some "/r", extraData := some "d1" } })
        { body := [("jwt", "t1")], query := [] }
        { badRequestMessage := some "Custom message" }).1 =
      .fail (.msg "Custom message") (some 400) ∧
     (Strategy.authenticate
        { name := "litProtocol", jwtField := "jwt", baseUrlField := "baseUrl",
          pathField := "path", extraDataField := "extraData",
          passReqToCallback := false,
          verify := fun _ => VerifyAction.done (U := String) (I := String)
            (E := String) none (some "user1") none }
        (fun _ => { verified := true,
                    payload := { sub := some "addr1",
                                 baseUrl := some "https://x",
                                 path := some "/r", extraData := some "d1" } })
        { body := [("jwt", "t1")], query := [] }
        { badRequestMessage := none }).1 =
      .fail (.msg "Missing credentials") (some 400)) ∧
    ((Strategy.authenticate
        { name := "litProtocol", jwtField := "jwt", baseUrlField := "baseUrl",
          pathField := "path", extraDataField := "extraData",
          passReqToCallback := false,
          verify := fun _ => VerifyAction.done (U := String) (I := String)
            (E := String) none (some "user1") none }
        (fun _ => { verified := true,
                    payload := { sub := some "addr1",
                                 baseUrl := some "https://x",
                                 path := some "/other",
                                 extraData := some "d1" } })
        { body := [("jwt", "t1"), ("baseUrl", "https://x"), ("path", "/r"),
                   ("extraData", "d1")], query := [] }
        { badRequestMessage := some "Custom message" }).1 =
      .fail (.msg "Custom message") (some 400) ∧
     (Strategy.authenticate
        { name := "litProtocol", jwtField := "jwt", baseUrlField := "baseUrl",
          pathField := "path", extraDataField := "extraData",
          passReqToCallback := false,
          verify := fun _ => VerifyAction.done (U := String) (I := String)
            (E := String) none (some "user1") none }
        (fun _ => { verified := true,
                    payload := { sub := some "addr1",
                                 baseUrl := some "https://x",
                                 path := some "/other",
                                 extraData := some "d1" } })
        { body := [("jwt", "t1"), ("baseUrl", "https://x"), ("path", "/r"),
                   ("extraData", "d1")], query := [] }
        { badRequestMessage := none }).1 =
      .fail (.msg "Ooops. JWT payload does not match requested resource.")
        (some 400)) ∧
    ((Strategy.authenticate
        { name := "litProtocol", jwtField := "jwt", baseUrlField := "baseUrl",
          pathField := "path", extraDataField := "extraData",
          passReqToCallback := false,
          verify := fun _ => VerifyAction.done (U := String) (I := String)
            (E := String) none (some "user1") none }
        (fun _ => { verified := false,
                    payload := { sub := some "addr1",
                                 baseUrl := some "https://x",
                                 path := some "/r", extraData := some "d1" } })
        { body := [("jwt", "t1"), ("baseUrl", "https://x"), ("path", "/r"),
                   ("extraData", "d1")], query := [] }
        { badRequestMessage := some "Custom message" }).1 =
      .fail (.msg "Custom message") (some 400) ∧
     (Strategy.authenticate
        { name := "litProtocol", jwtField := "jwt", baseUrlField := "baseUrl",
          pathField := "path", extraDataField := "extraData",
          passReqToCallback := false,
          verify := fun _ => VerifyAction.done (U := String) (I := String)
            (E := String) none (some "user1") none }
        (fun _ => { verified := false,
                    payload := { sub := some "addr1",
                                 baseUrl := some "https://x",
                                 path := some "/r", extraData := some "d1" } })
        { body := [("jwt", "t1"), ("baseUrl", "https://x"), ("path", "/r"),
                   ("extraData", "d1")], query := [] }
        { badRequestMessage := none }).1 =
      .fail (.msg "Ooops. You don't have access to this resource.")
        (some 400)) :=
  ⟨claim_C9_per_call_message_overrides _ _ _ "Custom message" (by decide)
      |>.1 (by decide),
   claim_C9_per_call_message_overrides _ _ _ "Custom message" (by decide)
      |>.2.1 (by decide),
   claim_C9_per_call_message_overrides _ _ _ "Custom message" (by decide)
      |>.2.2 (by decide)⟩

/-- C10: no presence check is applied to the payload's `sub` claim — when the
four credentials are present, the claims match, and `verified = true`, the
verify callback is still invoked exactly once even though `sub` is absent,
receiving the absent identity as its address argument. -/
theorem claim_C10_absent_subject_still_delegated {U I E : Type}
    (s : Strategy (VerifyArgs → VerifyAction U I E))
    (vj : String → VerificationResult) (req : Req) (opts : AuthOptions)
    (hj : truthy (extractField req s.jwtField) = true)
    (hb : truthy (extractField req s.baseUrlField) = true)
    (hp : truthy (extractField req s.pathField) = true)
    (hx : truthy (extractField req s.extraDataField) = true)
    (mb : (vj ((extractField req s.jwtField).getD "")).payload.baseUrl =
            extractField req s.baseUrlField)
    (mp : (vj ((extractField req s.jwtField).getD "")).payload.path =
            extractField req s.pathField)
    (mx : (vj ((extractField req s.jwtField).getD "")).payload.extraData =
            extractField req s.extraDataField)
    (hv : (vj ((extractField req s.jwtField).getD "")).verified = true)
    (hsub : (vj ((extractField req s.jwtField).getD "")).payload.sub = none) :
    (s.authenticate vj req opts).2.verifyCalls =
      [if s.passReqToCallback then VerifyArgs.withReq req none
       else VerifyArgs.addrOnly none] := by
  rw [authenticate_delegates s vj req opts hj hb hp hx mb mp mx hv]
  cases s.verify (if s.passReqToCallback then
      VerifyArgs.withReq req
        (vj ((extractField req s.jwtField).getD "")).payload.sub
    else
      VerifyArgs.addrOnly
        (vj ((extractField req s.jwtField).getD "")).payload.sub) <;>
    simp [hsub]

/-- C10 witness: a payload with no `sub` claim on the happy path; the verify
callback is invoked once with the absent identity. -/
theorem claim_C10_witness :
    (Strategy.authenticate
      { name := "litProtocol", jwtField := "jwt", baseUrlField := "baseUrl",
        pathField := "path", extraDataField := "extraData",
        passReqToCallback := false,
        verify := fun _ => VerifyAction.done (U := String) (I := String)
          (E := String) none (some "user1") none }
      (fun _ => { verified := true,
                  payload := { sub := none, baseUrl := some "https://x",
                               path := some "/r", extraData := some "d1" } })
      { body := [("jwt", "t1"), ("baseUrl", "https://x"), ("path", "/r"),
                 ("extraData", "d1")], query := [] }
      {}).2.verifyCalls = [VerifyArgs.addrOnly none] :=
  claim_C10_absent_subject_still_delegated _ _ _ _ (by decide) (by decide)
    (by decide) (by decide) (by decide) (by decide) (by decide) (by decide)
    (by decide)

end PassportLit
